import Mathlib

/-!
Shallow embedding of the voice-conversation turn controller of
`src/web/components/VoiceChat.tsx` (the `VoiceChat` React component).

Modelling conventions:
  * React component state (`useState`) and refs (`useRef`) are gathered into
    the `ChatState` record.  `mediaRecorderRef` is modelled as an optional
    instance identifier (a fresh `Nat` per created `MediaRecorder`), so that
    creating a new recording session is observable; `nextRecId` is the
    instrumentation counter handing out those identifiers.
  * `openStreams` counts microphone streams acquired via `getUserMedia` and
    not yet released with `track.stop()`; the code releases a stream only in
    the `onstop` handler, after `transcribeAudio` settles.
  * Asynchronous service calls (Whisper transcription, chat completion,
    device acquisition, `MediaRecorder` construction) are parameters of
    `Except`/`Option` type supplied by the environment.
  * React closure semantics: an event handler reads the state values of the
    render that created it.  `handleSendMessage` reads `messages` (inside
    `getAIResponse`), `isLoading` (its guard) and `files` from that render,
    while its writes (`setMessages` with a functional update, `setIsLoading`,
    `setInputText`) apply to the live state.  The `Closure` record carries
    the captured reads; the live state is threaded separately.
-/

inductive Role
| user
| assistant
deriving DecidableEq, Repr

structure Message where
  text : String
  type : Role
deriving DecidableEq, Repr

inductive ReqRole
| system
| user
| assistant
deriving DecidableEq, Repr

/-- One entry of the `messages` array sent to the completion service. -/
structure ReqMsg where
  role : ReqRole
  content : String
deriving DecidableEq, Repr

def roleToReq : Role → ReqRole
| .user => .user
| .assistant => .assistant

def msgToReq (m : Message) : ReqMsg :=
  ⟨roleToReq m.type, m.text⟩

/-- The system directive of `getAIResponse` (the template literal bound to
`context`, lines 180-190), with the uploaded file names interpolated. -/
def contextText (files : List String) : String :=
  "You are Wiz AI, a friendly and encouraging learning assistant. You should:\n      - Be conversational and enthusiastic about helping students learn\n      - Use emoji occasionally to keep the tone light and engaging\n      - Break down complex topics into simpler terms\n      - Provide examples and analogies to help understanding\n      - Ask follow-up questions to ensure understanding\n      - Encourage critical thinking rather than just giving answers\n      - Be supportive and motivating\n      \n      The user has uploaded the following files: "
    ++ String.intercalate ", " files
    ++ ". \n      Refer to these materials in your responses when relevant."

def fallbackText : String :=
  "I apologize, but I encountered an error while processing your request."

def defaultResponseText : String :=
  "I\x27m sorry, I couldn\x27t generate a response."

def micErrorText : String := "Failed to access microphone"

def transcribeErrorText : String :=
  "Failed to transcribe audio. Please try again."

/-- Whitespace test of JS `String.prototype.trim` (restricted to the ASCII
whitespace characters, which is all the controller paths produce). -/
def isWs (c : Char) : Bool :=
  c == ' ' || c == '\t' || c == '\n' || c == '\r'

/-- JS `text.trim()`: drop leading and trailing whitespace. -/
def jsTrim (s : String) : String :=
  ⟨((s.data.dropWhile isWs).reverse.dropWhile isWs).reverse⟩

/-- The welcome text built in the `useEffect` watching `files`
(lines 42-50). -/
def welcomeText (files : List String) : String :=
  "Hey there! 👋 I\x27m Wiz AI, your AI learning assistant! I\x27ve noticed you\x27ve uploaded "
    ++ (if files.length = 1 then "a document" else toString files.length ++ " documents")
    ++ ". I\x27m here to help you understand the material, quiz you on the content, or just chat about what you\x27re learning. What would you like to focus on today?"

def welcomeMsg (files : List String) : Message :=
  ⟨welcomeText files, .assistant⟩

/-- The component state: `useState` hooks plus refs of `VoiceChat`. -/
structure ChatState where
  messages : List Message
  inputText : String
  isLoading : Bool
  isSpeaking : Bool
  isRecording : Bool
  recordingError : Option String
  autoSpeak : Bool
  files : List String
  mediaRecorder : Option Nat
  chunks : List Nat
  openStreams : Nat
  nextRecId : Nat
deriving DecidableEq, Repr

def initChat : ChatState :=
  { messages := []
    inputText := ""
    isLoading := false
    isSpeaking := false
    isRecording := false
    recordingError := none
    autoSpeak := true
    files := []
    mediaRecorder := none
    chunks := []
    openStreams := 0
    nextRecId := 0 }

/-- Values an event handler reads from the render that created it. -/
structure Closure where
  messages : List Message
  isLoading : Bool
  files : List String

/-- The `messages` array literal of the `openai.chat.completions.create`
call in `getAIResponse` (lines 192-206): the system directive, then the
closure snapshot of the transcript mapped to request entries, then the new
user utterance. -/
def buildRequest (files : List String) (snapshot : List Message) (userMessage : String) : List ReqMsg :=
  ⟨.system, contextText files⟩ :: (snapshot.map msgToReq ++ [⟨.user, userMessage⟩])

/-- The text `getAIResponse` resolves with: the first choice content if
truthy, the default apology if the content is missing or empty (JS `||`),
and the fallback string if the completion call threw. -/
def getAIResponseText (g : Except Unit (Option String)) : String :=
  match g with
  | .ok (some t) => if t == "" then defaultResponseText else t
  | .ok none => defaultResponseText
  | .error _ => fallbackText

/-- `handleSendMessage` (lines 215-232).  The guard reads the closure
`isLoading`; the accepted path appends the trimmed user message, issues the
completion request built from the closure transcript snapshot, appends the
assistant message, and clears `isLoading` in the `finally` block.  Returns
the new live state and the completion request issued, if any. -/
def handleSendMessage (clos : Closure) (s : ChatState) (text : String)
    (g : Except Unit (Option String)) : ChatState × Option (List ReqMsg) :=
  if (jsTrim text == "") || clos.isLoading then (s, none)
  else
    ({ s with
        messages := s.messages ++ [⟨jsTrim text, .user⟩, ⟨getAIResponseText g, .assistant⟩]
        inputText := ""
        isLoading := false },
     some (buildRequest clos.files clos.messages text))

/-- A `handleSendMessage` call made from the current render (the typed-text
path: the send button / Enter key), whose closure reads the current state. -/
def submitText (s : ChatState) (text : String) (g : Except Unit (Option String)) :
    ChatState × Option (List ReqMsg) :=
  handleSendMessage ⟨s.messages, s.isLoading, s.files⟩ s text g

/-- `transcribeAudio` (lines 102-120): sets `isLoading`, on transcription
success forwards the text to `handleSendMessage` (through the closure of the
render that started the recording), on failure sets a recording-error
notice; `finally` clears `isLoading`. -/
def transcribeAudio (clos : Closure) (s : ChatState) (tr : Except Unit String)
    (g : Except Unit (Option String)) : ChatState × Option (List ReqMsg) :=
  let s1 := { s with isLoading := true }
  match tr with
  | .error _ =>
      ({ s1 with recordingError := some transcribeErrorText, isLoading := false }, none)
  | .ok text =>
      let r := handleSendMessage clos s1 text g
      ({ r.1 with isLoading := false }, r.2)

/-- `startRecording` (lines 66-93).  `device` is the outcome of
`getUserMedia`, `ctor` the outcome of the `MediaRecorder` constructor.  A
successful acquisition increments `openStreams`; the catch block (either
failure) only sets the microphone error notice — in particular it does not
stop the acquired stream's tracks. -/
def startRecording (s : ChatState) (device : Except Unit Unit) (ctor : Except Unit Unit) : ChatState :=
  match device with
  | .error _ => { s with recordingError := some micErrorText }
  | .ok _ =>
      let s1 := { s with openStreams := s.openStreams + 1 }
      match ctor with
      | .error _ => { s1 with recordingError := some micErrorText }
      | .ok _ =>
          { s1 with
              mediaRecorder := some s1.nextRecId
              nextRecId := s1.nextRecId + 1
              chunks := []
              isRecording := true
              recordingError := none }

/-- `stopRecording` (lines 95-100) followed by the recorder's `onstop`
handler (lines 80-84): finalize the clip, run `transcribeAudio` with the
closures captured when the recording started, then release the stream's
tracks. -/
def stopRecordingFlow (clos : Closure) (s : ChatState) (tr : Except Unit String)
    (g : Except Unit (Option String)) : ChatState × Option (List ReqMsg) :=
  if s.mediaRecorder.isSome && s.isRecording then
    let r := transcribeAudio clos { s with isRecording := false } tr g
    ({ r.1 with openStreams := r.1.openStreams - 1 }, r.2)
  else (s, none)

/-- A whole voice turn from the current state: `startRecording` with a
successful device acquisition and recorder construction, then the stop flow;
`tr` is the transcription outcome, `g` the completion outcome.  The closures
are those of the render in which the recording started. -/
def voiceTurn (s : ChatState) (tr : Except Unit String)
    (g : Except Unit (Option String)) : ChatState × Option (List ReqMsg) :=
  stopRecordingFlow ⟨s.messages, s.isLoading, s.files⟩
    (startRecording s (.ok ()) (.ok ())) tr g

/-- The voice button (lines 342-354): disabled while `isLoading`, dispatches
`stopRecording` while recording and `startRecording` otherwise. -/
def voiceButtonClick (s : ChatState) (device ctor : Except Unit Unit) : ChatState :=
  if s.isLoading then s
  else if s.isRecording then
    (if s.mediaRecorder.isSome then { s with isRecording := false } else s)
  else startRecording s device ctor

/-- The body of the auto-speak `useEffect` (lines 59-64): if auto-speak is on
and the last transcript entry is an assistant message, it requests speech for
that text. -/
def autoSpeakFire (msgs : List Message) (auto : Bool) : Option String :=
  match msgs.getLast? with
  | some m => if auto && m.type == .assistant then some m.text else none
  | none => none

/-- Observable turn state of the controller, derived as in the spec:
recording active, a transcription/generation call outstanding, or idle. -/
inductive TurnState
| Idle
| Recording
| Awaiting
deriving DecidableEq, Repr

def turnState (s : ChatState) : TurnState :=
  if s.isRecording then .Recording
  else if s.isLoading then .Awaiting
  else .Idle

/-- Commits that change the auto-speak effect dependencies
`[messages, autoSpeak]`. -/
inductive UiEvent
| appendUser (t : String)
| appendAssistant (t : String)
| toggleAutoSpeak
| filesChange (fs : List String)

/-- State change of one commit.  A change of the `files` prop re-runs the
welcome `useEffect` (lines 42-50), which replaces the entire transcript with
the single welcome message. -/
def applyEvent (s : ChatState) : UiEvent → ChatState
| .appendUser t => { s with messages := s.messages ++ [⟨t, .user⟩] }
| .appendAssistant t => { s with messages := s.messages ++ [⟨t, .assistant⟩] }
| .toggleAutoSpeak => { s with autoSpeak := !s.autoSpeak }
| .filesChange fs => { s with files := fs, messages := [welcomeMsg fs] }

/-- One commit followed by the auto-speak effect run it triggers (each event
changes a dependency of the effect, so the effect runs after each). -/
def stepWithEffect (s : ChatState) (e : UiEvent) : ChatState × Option String :=
  let s1 := applyEvent s e
  (s1, autoSpeakFire s1.messages s1.autoSpeak)

/-- The speech requests the auto-speak effect issues along a commit
sequence. -/
def speechTrace : ChatState → List UiEvent → List String
| _, [] => []
| s, e :: es =>
    (stepWithEffect s e).2.toList ++ speechTrace (stepWithEffect s e).1 es

/-- Controller turn operations (the events that go through the turn
pipeline, as opposed to the `files`-prop change). -/
inductive TurnOp
| submit (text : String) (g : Except Unit (Option String))
| voice (tr : Except Unit String) (g : Except Unit (Option String))
| record (device ctor : Except Unit Unit)
| press (device ctor : Except Unit Unit)

def runOp (s : ChatState) : TurnOp → ChatState
| .submit t g => (submitText s t g).1
| .voice tr g => (voiceTurn s tr g).1
| .record d c => startRecording s d c
| .press d c => voiceButtonClick s d c

def runOps : ChatState → List TurnOp → ChatState
| s, [] => s
| s, op :: ops => runOps (runOp s op) ops

/-- Speech requests fired by the auto-speak effect over the commits of one
turn: each appended message is one `setMessages` commit, and the effect runs
after each commit. -/
def commitsSpeaks : List Message → Bool → List Message → List String
| _, _, [] => []
| base, auto, m :: rest =>
    (autoSpeakFire (base ++ [m]) auto).toList ++ commitsSpeaks (base ++ [m]) auto rest

namespace Speech

/-!
The SpeechPlayer side of the component: `stopSpeaking` (lines 123-132) and
`generateSpeech` (lines 134-176), with the awaits of one `generateSpeech`
call modelled as a pending fetch identified by a token (one token per
`AbortController` instance stored in `abortControllerRef`).  `aborted`
records the tokens whose controller was aborted; an aborted pending fetch
settles through the catch branch of `generateSpeech` (its promise rejects
with `AbortError`), which logs and then sets `isSpeaking` to `false`.
-/

structure PlayerState where
  isSpeaking : Bool
  audioSrc : Option Nat
  current : Option Nat
  aborted : List Nat
  pending : List (Nat × String)
  playing : Option Nat
  nextTok : Nat
deriving DecidableEq, Repr

def init : PlayerState :=
  { isSpeaking := false
    audioSrc := none
    current := none
    aborted := []
    pending := []
    playing := none
    nextTok := 0 }

/-- `stopSpeaking`: pause the audio element, abort the current controller,
clear the speaking flag.  The ref keeps pointing at the aborted
controller. -/
def stopSpeaking (s : PlayerState) : PlayerState :=
  { s with
      playing := none
      aborted := match s.current with
                 | some t => s.aborted ++ [t]
                 | none => s.aborted
      isSpeaking := false }

/-- The synchronous prefix of `generateSpeech`: stop the previous speech,
set the speaking flag, install a fresh `AbortController`, and issue the
synthesis fetch (now pending under the fresh token). -/
def speak (s : PlayerState) (text : String) : PlayerState :=
  let s1 := stopSpeaking s
  { s1 with
      isSpeaking := true
      current := some s1.nextTok
      pending := s1.pending ++ [(s1.nextTok, text)]
      nextTok := s1.nextTok + 1 }

def isPending (s : PlayerState) (t : Nat) : Bool :=
  s.pending.any (fun p => p.1 == t)

/-- Settlement of the pending synthesis request with token `t`.  If the
token's controller was aborted the fetch rejects with `AbortError` and the
catch branch runs (`setIsSpeaking(false)`); otherwise an ok response sets
the audio element source and starts playback, and a non-ok response throws
into the same catch branch. -/
def resolve (s : PlayerState) (t : Nat) (ok : Bool) : PlayerState :=
  if isPending s t then
    let s1 := { s with pending := s.pending.filter (fun p => p.1 != t) }
    if s1.aborted.contains t then { s1 with isSpeaking := false }
    else if ok then { s1 with audioSrc := some t, playing := some t }
    else { s1 with isSpeaking := false }
  else s

/-- The audio element's `onended` handler installed by `generateSpeech`. -/
def ended (s : PlayerState) : PlayerState :=
  { s with isSpeaking := false, playing := none }

inductive Ev
| speak (text : String)
| resolve (t : Nat) (ok : Bool)
| ended

def run : PlayerState → List Ev → PlayerState
| s, [] => s
| s, .speak txt :: es => run (speak s txt) es
| s, .resolve t ok :: es => run (resolve s t ok) es
| s, .ended :: es => run (ended s) es

end Speech

/-- Claim C1, counterexample.  `speak("a")` then `speak("b")` while a's
synthesis fetch (token 0) is still pending: when a's request settles, its
`AbortError` catch branch runs `setIsSpeaking(false)` and flips the
`isSpeaking` flag from `true` to `false` — the superseded request's eventual
result does mutate SpeechPlayer state, contrary to the claim. -/
theorem c1_counterexample :
    (Speech.run Speech.init [.speak "a", .speak "b"]).isSpeaking = true ∧
    (Speech.run Speech.init [.speak "a", .speak "b", .resolve 0 true]).isSpeaking = false ∧
    (Speech.run Speech.init [.speak "a", .speak "b"]).current = some 1 ∧
    (Speech.run Speech.init [.speak "a", .speak "b"]).aborted.contains 0 = true := by
  decide

/-- Claim C1 as amended.  A superseded (aborted) request's settlement never
starts playback and never mutates the audio element source, the playing
element, or the current-handle reference; it does, however, reset the
`isSpeaking` flag to `false` (the catch branch of `generateSpeech` runs
`setIsSpeaking(false)` also for `AbortError`). -/
theorem c1_superseded_resolution_inert (s : Speech.PlayerState) (t : Nat) (ok : Bool)
    (hp : Speech.isPending s t = true) (hab : s.aborted.contains t = true) :
    (Speech.resolve s t ok).audioSrc = s.audioSrc ∧
    (Speech.resolve s t ok).current = s.current ∧
    (Speech.resolve s t ok).playing = s.playing ∧
    (Speech.resolve s t ok).isSpeaking = false := by
  simp only [Speech.resolve, hp, if_true, hab]
  simp

/-- Witness for the amendment of claim C1 at the trace
`speak("a"); speak("b")` and token 0 (a's pending request). -/
theorem c1_witness :
    Speech.isPending (Speech.run Speech.init [.speak "a", .speak "b"]) 0 = true ∧
    (Speech.run Speech.init [.speak "a", .speak "b"]).aborted.contains 0 = true ∧
    ((Speech.resolve (Speech.run Speech.init [.speak "a", .speak "b"]) 0 true).audioSrc =
       (Speech.run Speech.init [.speak "a", .speak "b"]).audioSrc ∧
     (Speech.resolve (Speech.run Speech.init [.speak "a", .speak "b"]) 0 true).current =
       (Speech.run Speech.init [.speak "a", .speak "b"]).current ∧
     (Speech.resolve (Speech.run Speech.init [.speak "a", .speak "b"]) 0 true).playing =
       (Speech.run Speech.init [.speak "a", .speak "b"]).playing ∧
     (Speech.resolve (Speech.run Speech.init [.speak "a", .speak "b"]) 0 true).isSpeaking = false) :=
  ⟨by decide, by decide,
   c1_superseded_resolution_inert (Speech.run Speech.init [.speak "a", .speak "b"]) 0 true
     (by decide) (by decide)⟩

/-- Claim C2.  An accepted `submitText` (non-empty trimmed text, controller
idle) whose generation call fails appends exactly the user message followed
by one assistant message carrying the fallback text, and the controller
returns to `Idle`. -/
theorem c2_generation_failure_fallback (s : ChatState) (text : String)
    (hL : s.isLoading = false) (hR : s.isRecording = false)
    (hT : (jsTrim text == "") = false) :
    (submitText s text (.error ())).1.messages =
      s.messages ++ [⟨jsTrim text, .user⟩, ⟨fallbackText, .assistant⟩] ∧
    (submitText s text (.error ())).2 = some (buildRequest s.files s.messages text) ∧
    turnState (submitText s text (.error ())).1 = .Idle := by
  refine ⟨?_, ?_, ?_⟩ <;>
    simp [submitText, handleSendMessage, hL, hT, hR, getAIResponseText, turnState]

/-- Witness for claim C2 at the idle initial state and the utterance
"What is gravity?". -/
theorem c2_witness :
    initChat.isLoading = false ∧ initChat.isRecording = false ∧
    ((jsTrim "What is gravity?" == "") = false) ∧
    ((submitText initChat "What is gravity?" (.error ())).1.messages =
       initChat.messages ++ [⟨"What is gravity?", .user⟩, ⟨fallbackText, .assistant⟩] ∧
     (submitText initChat "What is gravity?" (.error ())).2 =
       some (buildRequest initChat.files initChat.messages "What is gravity?") ∧
     turnState (submitText initChat "What is gravity?" (.error ())).1 = .Idle) := by
  refine ⟨rfl, rfl, by decide, ?_⟩
  have h := c2_generation_failure_fallback initChat "What is gravity?" rfl rfl (by decide)
  simpa using h

/-- Claim C6.  The completion request of an accepted `submitText` is exactly
the fixed system directive (referencing the uploaded file names), then the
transcript snapshot taken when the turn started (in order, roles and texts
preserved by `msgToReq`), then the new user utterance last — nothing else.
Note the snapshot is `s.messages`, without the just-appended user message. -/
theorem c6_request_shape (s : ChatState) (text : String) (g : Except Unit (Option String))
    (hL : s.isLoading = false) (hT : (jsTrim text == "") = false) :
    (submitText s text g).2 =
      some (⟨.system, contextText s.files⟩ :: (s.messages.map msgToReq ++ [⟨.user, text⟩])) := by
  simp [submitText, handleSendMessage, hL, hT, buildRequest]

/-- Witness for claim C6 at a state with a two-message transcript and one
uploaded file. -/
theorem c6_witness :
    ({ initChat with
        messages := [⟨"hi", .user⟩, ⟨"yo", .assistant⟩],
        files := ["notes.pdf"] } : ChatState).isLoading = false ∧
    ((jsTrim "next" == "") = false) ∧
    (submitText
        { initChat with
            messages := [⟨"hi", .user⟩, ⟨"yo", .assistant⟩],
            files := ["notes.pdf"] } "next" (.ok (some "sure"))).2 =
      some (⟨.system, contextText ["notes.pdf"]⟩ ::
        ([⟨"hi", Role.user⟩, ⟨"yo", Role.assistant⟩].map msgToReq ++ [⟨.user, "next"⟩])) :=
  ⟨rfl, by decide,
   c6_request_shape
     { initChat with
         messages := [⟨"hi", .user⟩, ⟨"yo", .assistant⟩],
         files := ["notes.pdf"] } "next" (.ok (some "sure")) rfl (by decide)⟩

/-- Claim C3, counterexample.  `startRecording` itself has no idle guard:
called while a recording is already active (TurnState ≠ Idle), it creates a
fresh `MediaRecorder` (a new recording session: the recorder instance id
advances), acquires another microphone stream, and clears the error notice —
observable state changes, not a no-op. -/
theorem c3_counterexample :
    turnState { initChat with
        isRecording := true, mediaRecorder := some 0, nextRecId := 1,
        recordingError := some micErrorText } ≠ TurnState.Idle ∧
    (startRecording { initChat with
        isRecording := true, mediaRecorder := some 0, nextRecId := 1,
        recordingError := some micErrorText } (.ok ()) (.ok ())).mediaRecorder = some 1 ∧
    (startRecording { initChat with
        isRecording := true, mediaRecorder := some 0, nextRecId := 1,
        recordingError := some micErrorText } (.ok ()) (.ok ())).openStreams = 1 ∧
    (startRecording { initChat with
        isRecording := true, mediaRecorder := some 0, nextRecId := 1,
        recordingError := some micErrorText } (.ok ()) (.ok ())).recordingError = none ∧
    startRecording { initChat with
        isRecording := true, mediaRecorder := some 0, nextRecId := 1,
        recordingError := some micErrorText } (.ok ()) (.ok ()) ≠
      { initChat with
          isRecording := true, mediaRecorder := some 0, nextRecId := 1,
          recordingError := some micErrorText } := by
  decide

/-- Claim C3 as amended.  The re-entrancy protection lives in the UI, not in
`startRecording`: the voice button is disabled while a transcription or
generation call is outstanding and dispatches `stopRecording` instead of
`startRecording` while recording, so no button press issues a
`startRecording` call outside Idle and no new recording session or
microphone stream is ever created outside Idle through the UI. -/
theorem c3_ui_guard (s : ChatState) (d c : Except Unit Unit)
    (h : turnState s ≠ TurnState.Idle) :
    (voiceButtonClick s d c).nextRecId = s.nextRecId ∧
    (voiceButtonClick s d c).mediaRecorder = s.mediaRecorder ∧
    (voiceButtonClick s d c).openStreams = s.openStreams := by
  by_cases hl : s.isLoading
  · simp [voiceButtonClick, hl]
  · by_cases hr : s.isRecording
    · by_cases hm : s.mediaRecorder.isSome <;> simp [voiceButtonClick, hl, hr, hm]
    · exact absurd (by simp [turnState, hl, hr]) h

/-- Witness for the amendment of claim C3 at a recording-active state. -/
theorem c3_witness :
    turnState { initChat with isRecording := true, mediaRecorder := some 0 } ≠ TurnState.Idle ∧
    ((voiceButtonClick { initChat with isRecording := true, mediaRecorder := some 0 }
        (.ok ()) (.ok ())).nextRecId =
      ({ initChat with isRecording := true, mediaRecorder := some 0 } : ChatState).nextRecId ∧
     (voiceButtonClick { initChat with isRecording := true, mediaRecorder := some 0 }
        (.ok ()) (.ok ())).mediaRecorder =
      ({ initChat with isRecording := true, mediaRecorder := some 0 } : ChatState).mediaRecorder ∧
     (voiceButtonClick { initChat with isRecording := true, mediaRecorder := some 0 }
        (.ok ()) (.ok ())).openStreams =
      ({ initChat with isRecording := true, mediaRecorder := some 0 } : ChatState).openStreams) :=
  ⟨by decide,
   c3_ui_guard { initChat with isRecording := true, mediaRecorder := some 0 }
     (.ok ()) (.ok ()) (by decide)⟩

/-- Claim C4, counterexample.  A change of the `files` prop re-runs the
welcome `useEffect`, which replaces the entire transcript: the previously
appended message at index 0 is gone, contrary to "every previously appended
Message remains at its index". -/
theorem c4_counterexample :
    (applyEvent { initChat with messages := [⟨"hi", Role.user⟩] }
        (.filesChange ["doc.pdf"])).messages.length = 1 ∧
    (applyEvent { initChat with messages := [⟨"hi", Role.user⟩] }
        (.filesChange ["doc.pdf"])).messages.get? 0 ≠ some ⟨"hi", Role.user⟩ := by
  decide

/-- Every controller turn operation only appends to the transcript. -/
theorem runOp_appends (s : ChatState) (op : TurnOp) :
    ∃ tail, (runOp s op).messages = s.messages ++ tail := by
  cases op with
  | submit t g =>
      by_cases h : (jsTrim t == "") || s.isLoading
      · exact ⟨[], by simp [runOp, submitText, handleSendMessage, h]⟩
      · exact ⟨[⟨jsTrim t, .user⟩, ⟨getAIResponseText g, .assistant⟩],
          by simp [runOp, submitText, handleSendMessage, h]⟩
  | voice tr g =>
      cases tr with
      | error e =>
          exact ⟨[], by simp [runOp, voiceTurn, startRecording, stopRecordingFlow, transcribeAudio]⟩
      | ok t =>
          by_cases h : (jsTrim t == "") || s.isLoading
          · exact ⟨[], by
              simp [runOp, voiceTurn, startRecording, stopRecordingFlow, transcribeAudio,
                handleSendMessage, h]⟩
          · exact ⟨[⟨jsTrim t, .user⟩, ⟨getAIResponseText g, .assistant⟩], by
              simp [runOp, voiceTurn, startRecording, stopRecordingFlow, transcribeAudio,
                handleSendMessage, h]⟩
  | record d c =>
      cases d with
      | error e => exact ⟨[], by simp [runOp, startRecording]⟩
      | ok u =>
          cases c with
          | error e => exact ⟨[], by simp [runOp, startRecording]⟩
          | ok u2 => exact ⟨[], by simp [runOp, startRecording]⟩
  | press d c =>
      by_cases hl : s.isLoading
      · exact ⟨[], by simp [runOp, voiceButtonClick, hl]⟩
      · by_cases hr : s.isRecording
        · by_cases hm : s.mediaRecorder.isSome
          · exact ⟨[], by simp [runOp, voiceButtonClick, hl, hr, hm]⟩
          · exact ⟨[], by simp [runOp, voiceButtonClick, hl, hr, hm]⟩
        · cases d with
          | error e => exact ⟨[], by simp [runOp, voiceButtonClick, hl, hr, startRecording]⟩
          | ok u =>
              cases c with
              | error e => exact ⟨[], by simp [runOp, voiceButtonClick, hl, hr, startRecording]⟩
              | ok u2 => exact ⟨[], by simp [runOp, voiceButtonClick, hl, hr, startRecording]⟩

/-- Claim C4 as amended.  Across every sequence of controller turn
operations (typed submits, voice turns, recording starts, voice-button
presses) the transcript is append-only: the prior transcript is a prefix of
the later one, no entry is deleted, replaced or reordered.  The exception
forced by the counterexample is the `files`-prop change, whose welcome
effect replaces the whole transcript. -/
theorem c4_turnops_append_only (s : ChatState) (ops : List TurnOp) :
    ∃ tail, (runOps s ops).messages = s.messages ++ tail := by
  induction ops generalizing s with
  | nil => exact ⟨[], by simp [runOps]⟩
  | cons op ops ih =>
      obtain ⟨t1, h1⟩ := runOp_appends s op
      obtain ⟨t2, h2⟩ := ih (runOp s op)
      exact ⟨t1 ++ t2, by simp [runOps, h2, h1]⟩

/-- Claim C5, counterexample.  The auto-speak effect re-runs whenever its
dependencies `[messages, autoSpeak]` change and keys on the *last* message,
not on the append: after appending one assistant message, toggling
auto-speak off and on issues a second speech request for the same uniquely
appended message — "never more than one" fails. -/
theorem c5_counterexample :
    speechTrace initChat [.appendAssistant "m", .toggleAutoSpeak, .toggleAutoSpeak] =
      ["m", "m"] := by
  decide

/-- Claim C5 as amended.  While auto-speak is enabled, appending an
assistant message triggers exactly one speech request at that commit,
carrying that message's text; but the effect fires again on any later
dependency change that leaves an assistant message last (for example
toggling auto-speak off and then on), so the same appended message can be
spoken more than once. -/
theorem c5_append_fires_once (s : ChatState) (t : String) (h : s.autoSpeak = true) :
    stepWithEffect s (.appendAssistant t) =
      ({ s with messages := s.messages ++ [⟨t, Role.assistant⟩] }, some t) := by
  simp [stepWithEffect, applyEvent, autoSpeakFire, h]

/-- Witness for the amendment of claim C5 at the initial state. -/
theorem c5_witness :
    initChat.autoSpeak = true ∧
    stepWithEffect initChat (.appendAssistant "hi") =
      ({ initChat with messages := initChat.messages ++ [⟨"hi", Role.assistant⟩] }, some "hi") :=
  ⟨rfl, c5_append_fires_once initChat "hi" rfl⟩

/-- Claim C7.  From an idle controller, a voice turn whose transcription
returns "hello" is observationally equivalent to `submitText("hello")` with
the same generation outcome: same transcript updates, same completion
request, same final turn state, and same auto-speak speech requests over the
turn's commits. -/
theorem c7_voice_equiv_text (s : ChatState) (g : Except Unit (Option String))
    (hL : s.isLoading = false) (hR : s.isRecording = false) :
    (voiceTurn s (.ok "hello") g).1.messages = (submitText s "hello" g).1.messages ∧
    (voiceTurn s (.ok "hello") g).2 = (submitText s "hello" g).2 ∧
    turnState (voiceTurn s (.ok "hello") g).1 = turnState (submitText s "hello" g).1 ∧
    commitsSpeaks s.messages s.autoSpeak
        ((voiceTurn s (.ok "hello") g).1.messages.drop s.messages.length) =
      commitsSpeaks s.messages s.autoSpeak
        ((submitText s "hello" g).1.messages.drop s.messages.length) := by
  have hm : (voiceTurn s (.ok "hello") g).1.messages = (submitText s "hello" g).1.messages := by
    simp [voiceTurn, startRecording, stopRecordingFlow, transcribeAudio,
      submitText, handleSendMessage, hL, jsTrim, isWs]
  refine ⟨hm, ?_, ?_, by rw [hm]⟩
  · simp [voiceTurn, startRecording, stopRecordingFlow, transcribeAudio,
      submitText, handleSendMessage, hL, jsTrim, isWs]
  · simp [voiceTurn, startRecording, stopRecordingFlow, transcribeAudio,
      submitText, handleSendMessage, hL, hR, jsTrim, isWs, turnState]

/-- Witness for claim C7 at the idle initial state. -/
theorem c7_witness :
    initChat.isLoading = false ∧ initChat.isRecording = false ∧
    ((voiceTurn initChat (.ok "hello") (.ok (some "hi there"))).1.messages =
       (submitText initChat "hello" (.ok (some "hi there"))).1.messages ∧
     (voiceTurn initChat (.ok "hello") (.ok (some "hi there"))).2 =
       (submitText initChat "hello" (.ok (some "hi there"))).2 ∧
     turnState (voiceTurn initChat (.ok "hello") (.ok (some "hi there"))).1 =
       turnState (submitText initChat "hello" (.ok (some "hi there"))).1 ∧
     commitsSpeaks initChat.messages initChat.autoSpeak
         ((voiceTurn initChat (.ok "hello") (.ok (some "hi there"))).1.messages.drop
           initChat.messages.length) =
       commitsSpeaks initChat.messages initChat.autoSpeak
         ((submitText initChat "hello" (.ok (some "hi there"))).1.messages.drop
           initChat.messages.length)) :=
  ⟨rfl, rfl, c7_voice_equiv_text initChat (.ok (some "hi there")) rfl rfl⟩

/-- Claim C8.  A voice turn whose transcription call fails appends zero
messages, issues no completion request, surfaces the recoverable inline
notice, and returns the controller to Idle. -/
theorem c8_transcription_failure (s : ChatState) (g : Except Unit (Option String)) :
    (voiceTurn s (.error ()) g).1.messages = s.messages ∧
    (voiceTurn s (.error ()) g).2 = none ∧
    (voiceTurn s (.error ()) g).1.recordingError = some transcribeErrorText ∧
    turnState (voiceTurn s (.error ()) g).1 = .Idle := by
  simp [voiceTurn, startRecording, stopRecordingFlow, transcribeAudio, turnState]

/-- Claim C9, the code evaluated at the failing input.  With `getUserMedia`
succeeding and the `MediaRecorder` constructor throwing (for example an
unsupported `audio/webm` mime type), the catch block of `startRecording`
only sets the error notice: the acquired microphone stream stays open
(`openStreams = 1`), no recorder exists whose `onstop` handler — the only
release site in the component — could ever run, and no recording is active.
The device handle dangles, contradicting the every-exit-path release
claim. -/
theorem c9_recorder_ctor_leak :
    (startRecording initChat (.ok ()) (.error ())).openStreams = 1 ∧
    (startRecording initChat (.ok ()) (.error ())).mediaRecorder = none ∧
    (startRecording initChat (.ok ()) (.error ())).isRecording = false ∧
    (startRecording initChat (.ok ()) (.error ())).recordingError = some micErrorText := by
  decide

/-- Claim C10.  A voice turn whose transcription succeeds with empty or
whitespace-only text is silently discarded by the `handleSendMessage` guard:
zero messages appended, no completion request, no error notice, controller
back to Idle. -/
theorem c10_blank_transcription_dropped (s : ChatState) (text : String)
    (g : Except Unit (Option String)) (hT : jsTrim text = "") :
    (voiceTurn s (.ok text) g).1.messages = s.messages ∧
    (voiceTurn s (.ok text) g).2 = none ∧
    (voiceTurn s (.ok text) g).1.recordingError = none ∧
    turnState (voiceTurn s (.ok text) g).1 = .Idle := by
  simp [voiceTurn, startRecording, stopRecordingFlow, transcribeAudio,
    handleSendMessage, hT, turnState]

/-- Witness for claim C10 at the idle initial state and a whitespace-only
transcription. -/
theorem c10_witness :
    jsTrim "  " = "" ∧
    ((voiceTurn initChat (.ok "  ") (.ok (some "hi"))).1.messages = initChat.messages ∧
     (voiceTurn initChat (.ok "  ") (.ok (some "hi"))).2 = none ∧
     (voiceTurn initChat (.ok "  ") (.ok (some "hi"))).1.recordingError = none ∧
     turnState (voiceTurn initChat (.ok "  ") (.ok (some "hi"))).1 = .Idle) :=
  ⟨by decide, c10_blank_transcription_dropped initChat "  " (.ok (some "hi")) (by decide)⟩
